import Mathlib

/-
  Verification of the conversation-session logic of
  src/LO_Week2_code_assignment.py (a Streamlit research-assistant chat app).

  The embedding translates the session-state mutations of the script:
  the per-turn chat-input handler (lines 126-139), the Clear Conversation
  handler (lines 76-78), the End Conversation handler (lines 81-87), the
  prompt construction in get_research_response (lines 43-48) and the
  transcript exporter format_messages_as_html (lines 103-118).  The hosted
  agent call (Runner.run awaited through asyncio.run) is abstracted as a
  function from the prompt text to either an answer or a raised error.
-/

namespace ResearchAssistant

/-- A chat message: a role tag ("user" or "assistant") and text content,
mirroring the dicts stored in st.session_state.messages. -/
structure Message where
  role : String
  content : String
deriving DecidableEq

/-- A failure of the hosted agent call: any exception propagating out of
asyncio.run(get_research_response(...)) at line 137. -/
inductive GatewayError where
  | failed (msg : String)
deriving DecidableEq

/-- The per-session state initialised at lines 14-22 of the source:
message list, the two tool flags, and the active flag. -/
structure SessionState where
  messages : List Message
  use_web_search : Bool
  use_file_search : Bool
  conversation_active : Bool
deriving DecidableEq

/-- Initial session state (lines 15-22): empty messages, both tools
enabled, conversation active. -/
def initialSession : SessionState :=
  { messages := []
    use_web_search := true
    use_file_search := true
    conversation_active := true }

/-- The user-side message appended at line 131. -/
def userMessage (q : String) : Message := { role := "user", content := q }

/-- The assistant-side message appended at line 139. -/
def assistantMessage (a : String) : Message := { role := "assistant", content := a }

/-- The send precondition: the source rejects a question exactly when
`not use_web_search and not use_file_search` holds (lines 66-67 and 128),
so sending is allowed iff that condition is false. -/
def canSend (s : SessionState) : Bool :=
  !(!s.use_web_search && !s.use_file_search)

/-- One history line, f-string f"role: content" at line 45. -/
def contextLine (m : Message) : String := m.role ++ ": " ++ m.content

/-- get_research_response (lines 43-48): joins the given history into a
context block, builds the prompt, and issues one call to the hosted agent
runtime, abstracted as `run : prompt → Except GatewayError answer`. -/
def get_research_response (run : String → Except GatewayError String)
    (question : String) (history : List Message) : Except GatewayError String :=
  let context := String.intercalate "\n" (history.map contextLine)
  let prompt := "Context of our conversation:\n" ++ context ++
    "\n\nCurrent question: " ++ question
  run prompt

/-- Observable outcome of one chat-input turn: the inline error of
line 129, a rendered answer, or a propagated gateway exception. -/
inductive TurnOutcome where
  | rejectedNoTool
  | answered (a : String)
  | failed (e : GatewayError)
deriving DecidableEq

/-- The chat-input handler (lines 126-139).  On the accept branch the user
message is appended first (line 131), and line 137 passes
st.session_state.messages, i.e. the history after that append, to
get_research_response; the assistant message is appended at line 139 only
when the call returns. -/
def handle_user_question (run : String → Except GatewayError String)
    (s : SessionState) (user_question : String) : SessionState × TurnOutcome :=
  if !s.use_web_search && !s.use_file_search then
    (s, TurnOutcome.rejectedNoTool)
  else
    let s1 := { s with messages := s.messages ++ [userMessage user_question] }
    match get_research_response run user_question s1.messages with
    | Except.error e => (s1, TurnOutcome.failed e)
    | Except.ok response =>
        ({ s1 with messages := s1.messages ++ [assistantMessage response] },
          TurnOutcome.answered response)

/-- Clear Conversation button handler (lines 76-78): resets the message
list to empty and touches nothing else. -/
def clear_conversation (s : SessionState) : SessionState :=
  { s with messages := [] }

/-- The fixed terminal message appended by the End Conversation handler
(lines 83-86). -/
def terminalMessage : Message :=
  { role := "assistant"
    content := "Conversation ended. Leave the window open to restart it anytime. Otherwise you may close the browser window." }

/-- End Conversation button handler (lines 81-87): sets
conversation_active to false and appends the terminal message. -/
def end_conversation (s : SessionState) : SessionState :=
  { s with conversation_active := false
           messages := s.messages ++ [terminalMessage] }

/-- One mutation of the message list over a session: an
`st.session_state.messages.append(...)` (lines 83, 131, 139) or the reset
`st.session_state.messages = []` of line 77. -/
inductive StoreOp where
  | append (m : Message)
  | clear

/-- Runs a sequence of store operations on a message list: a Python-list
append adds at the end, a clear replaces the list with the empty one. -/
def runStore (s : List Message) : List StoreOp → List Message
  | [] => s
  | StoreOp.append m :: ops => runStore (s ++ [m]) ops
  | StoreOp.clear :: ops => runStore [] ops

/-- Number of append operations in a sequence. -/
def appendCount : List StoreOp → Nat
  | [] => 0
  | StoreOp.append _ :: ops => appendCount ops + 1
  | StoreOp.clear :: ops => appendCount ops

/-- Number of stored messages removed by the clear operations of a
sequence, starting from a store currently holding `cur` messages. -/
def removedCount (cur : Nat) : List StoreOp → Nat
  | [] => 0
  | StoreOp.append _ :: ops => removedCount (cur + 1) ops
  | StoreOp.clear :: ops => cur + removedCount 0 ops

/-- Python str.replace with a single-character pattern substitutes each
occurrence of that character independently, left to right; at the
character-list level that is this pointwise expansion. -/
def pyReplace1 (c : Char) (r : List Char) : List Char → List Char
  | [] => []
  | a :: s => (if a = c then r else [a]) ++ pyReplace1 c r s

/-- The replace chain of line 115: content.replace of each of the
ampersand, the angle brackets and the newline, in that order. -/
def escapeList (l : List Char) : List Char :=
  pyReplace1 '\n' "<br>".data
    (pyReplace1 '>' "&gt;".data
      (pyReplace1 '<' "&lt;".data
        (pyReplace1 '&' "&amp;".data l)))

/-- String-level wrapper of the escaping chain of line 115. -/
def escapeContent (s : String) : String := String.mk (escapeList s.data)

/-- What line 115 does to each single character of the content: the
ampersand, the two angle brackets and the newline are expanded to their
escape sequences, every other character passes through unchanged. -/
def escChar (c : Char) : List Char :=
  if c = '&' then "&amp;".data
  else if c = '<' then "&lt;".data
  else if c = '>' then "&gt;".data
  else if c = '\n' then "<br>".data
  else [c]

/-- Pointwise escaping of a whole character list by `escChar`. -/
def escMap : List Char → List Char
  | [] => []
  | c :: cs => escChar c ++ escMap cs

/-- Python str.capitalize as used at line 116: first character upper-cased,
the remaining characters lower-cased. -/
def pyCapitalize (s : String) : String :=
  match s.data with
  | [] => ""
  | c :: rest => String.mk (c.toUpper :: rest.map Char.toLower)

/-- The fixed header and style block of the transcript (lines 104-112). -/
def htmlHeader : String :=
  "\n    <html><head><style>\n    body \x7b font-family: Arial, sans-serif; padding: 20px; \x7d\n    .user \x7b color: blue; margin-bottom: 10px; \x7d\n    .assistant \x7b color: green; margin-bottom: 20px; \x7d\n    .message \x7b border-bottom: 1px solid #ddd; padding-bottom: 10px; \x7d\n    </style></head><body>\n    <h2>Conversation Transcript</h2>\n    "

/-- The per-message block of lines 113-116: role class, capitalized role
label, and the escaped content. -/
def msgDiv (m : Message) : String :=
  let role_class := if m.role = "user" then "user" else "assistant"
  "<div class=\"message " ++ role_class ++ "\"><strong>" ++
    pyCapitalize m.role ++ ":</strong><br>" ++ escapeContent m.content ++ "</div>"

/-- The accumulation loop of lines 113-116: html += one div per message. -/
def format_body (acc : String) : List Message → String
  | [] => acc
  | m :: ms => format_body (acc ++ msgDiv m) ms

/-- format_messages_as_html (lines 103-118): header, one block per
message, closing tags. -/
def format_messages_as_html (messages : List Message) : String :=
  format_body htmlHeader messages ++ "</body></html>"

/-- Concatenation of the per-message blocks, head first: the closed form
of the accumulation loop. -/
def msgsHtml : List Message → String
  | [] => ""
  | m :: ms => msgDiv m ++ msgsHtml ms

/-- Modelled from the spec wording of the AgentGateway boundary: the
context preamble built from a given message sequence, one "role: content"
line per message.  Used to compare the request the code actually sends
with the request the spec describes (preamble over prior messages only). -/
def contextPreamble_spec (msgs : List Message) : String :=
  String.intercalate "\n" (msgs.map contextLine)

lemma canSend_true_iff (s : SessionState) :
    canSend s = true ↔ (!s.use_web_search && !s.use_file_search) = false := by
  unfold canSend
  cases (!s.use_web_search && !s.use_file_search) <;> simp

lemma canSend_false_iff (s : SessionState) :
    canSend s = false ↔ (!s.use_web_search && !s.use_file_search) = true := by
  unfold canSend
  cases (!s.use_web_search && !s.use_file_search) <;> simp

lemma handle_reject (run : String → Except GatewayError String)
    (s : SessionState) (q : String) (hb : canSend s = false) :
    handle_user_question run s q = (s, TurnOutcome.rejectedNoTool) := by
  have h := (canSend_false_iff s).1 hb
  simp [handle_user_question, h]

lemma handle_fail (run : String → Except GatewayError String)
    (s : SessionState) (q : String) (e : GatewayError)
    (hc : canSend s = true)
    (hf : get_research_response run q (s.messages ++ [userMessage q]) =
      Except.error e) :
    handle_user_question run s q =
      ({ s with messages := s.messages ++ [userMessage q] },
        TurnOutcome.failed e) := by
  have h := (canSend_true_iff s).1 hc
  simp [handle_user_question, h, hf]

lemma handle_ok (run : String → Except GatewayError String)
    (s : SessionState) (q a : String)
    (hc : canSend s = true)
    (hok : get_research_response run q (s.messages ++ [userMessage q]) =
      Except.ok a) :
    handle_user_question run s q =
      ({ s with messages := s.messages ++ [userMessage q, assistantMessage a] },
        TurnOutcome.answered a) := by
  have h := (canSend_true_iff s).1 hc
  simp [handle_user_question, h, hok]

lemma runStore_append_last (s : List Message) (ops : List StoreOp) (m : Message) :
    runStore s (ops ++ [StoreOp.append m]) = runStore s ops ++ [m] := by
  induction ops generalizing s with
  | nil => rfl
  | cons op ops ih => cases op <;> simp [runStore, ih]

lemma runStore_clear_last (s : List Message) (ops : List StoreOp) :
    runStore s (ops ++ [StoreOp.clear]) = [] := by
  induction ops generalizing s with
  | nil => rfl
  | cons op ops ih => cases op <;> simp [runStore, ih]

lemma runStore_length_invariant (ops : List StoreOp) :
    ∀ s : List Message,
      (runStore s ops).length + removedCount s.length ops =
        s.length + appendCount ops := by
  induction ops with
  | nil => intro s; simp [runStore, removedCount, appendCount]
  | cons op ops ih =>
      intro s
      cases op with
      | append m =>
          have h := ih (s ++ [m])
          simp [runStore, removedCount, appendCount] at h ⊢
          omega
      | clear =>
          have h := ih []
          simp [runStore, removedCount, appendCount] at h ⊢
          omega

lemma pyReplace1_append (c : Char) (r x y : List Char) :
    pyReplace1 c r (x ++ y) = pyReplace1 c r x ++ pyReplace1 c r y := by
  induction x with
  | nil => rfl
  | cons a s ih => simp [pyReplace1, ih]

lemma escapeList_append (x y : List Char) :
    escapeList (x ++ y) = escapeList x ++ escapeList y := by
  simp [escapeList, pyReplace1_append]

lemma escapeList_single (a : Char) : escapeList [a] = escChar a := by
  by_cases h1 : a = '&'
  · subst h1; decide
  by_cases h2 : a = '<'
  · subst h2; decide
  by_cases h3 : a = '>'
  · subst h3; decide
  by_cases h4 : a = '\n'
  · subst h4; decide
  simp [escapeList, pyReplace1, escChar, h1, h2, h3, h4]

lemma escapeList_eq_escMap (l : List Char) : escapeList l = escMap l := by
  induction l with
  | nil => rfl
  | cons a s ih =>
      have h : escapeList (a :: s) = escapeList [a] ++ escapeList s := by
        have := escapeList_append [a] s
        simpa using this
      rw [h, escapeList_single, ih]
      rfl

lemma string_data_append (a b : String) : (a ++ b).data = a.data ++ b.data := by
  cases a
  cases b
  rfl

lemma string_of_data_eq (a b : String) (h : a.data = b.data) : a = b := by
  cases a
  cases b
  exact congrArg String.mk h

lemma format_body_eq (l : List Message) :
    ∀ acc : String, format_body acc l = acc ++ msgsHtml l := by
  induction l with
  | nil =>
      intro acc
      apply string_of_data_eq
      simp [format_body, msgsHtml, string_data_append]
  | cons m ms ih =>
      intro acc
      have h := ih (acc ++ msgDiv m)
      apply string_of_data_eq
      simp [format_body, msgsHtml, h, string_data_append]

/-- C1: when both tool flags are false, submitting a question via the chat
handler is rejected with the user-visible error outcome, the session state
(hence the conversation store) is unchanged, and the agent gateway is never
invoked (the result is independent of the gateway function); and canSend is
true iff at least one of the two tool flags is true, over all four flag
combinations. -/
theorem C1_no_tools_rejected :
    (∀ (s : SessionState) (q : String)
        (run run' : String → Except GatewayError String),
        canSend s = false →
        handle_user_question run s q = (s, TurnOutcome.rejectedNoTool) ∧
        handle_user_question run s q = handle_user_question run' s q) ∧
    (∀ s : SessionState,
        canSend s = (s.use_web_search || s.use_file_search)) := by
  constructor
  · intro s q run run' hb
    refine ⟨handle_reject run s q hb, ?_⟩
    rw [handle_reject run s q hb, handle_reject run' s q hb]
  · intro s
    rcases s with ⟨m, w, f, act⟩
    cases w <;> cases f <;> rfl

theorem C1_no_tools_rejected_witness :
    canSend { initialSession with
        use_web_search := false, use_file_search := false } = false ∧
    handle_user_question (fun _ => Except.ok "A1")
        { initialSession with
            use_web_search := false, use_file_search := false } "Q1" =
      ({ initialSession with
          use_web_search := false, use_file_search := false },
        TurnOutcome.rejectedNoTool) :=
  ⟨rfl,
    (C1_no_tools_rejected.1
      { initialSession with use_web_search := false, use_file_search := false }
      "Q1" (fun _ => Except.ok "A1")
      (fun _ => Except.error (GatewayError.failed "down")) rfl).1⟩

/-- C2: if the gateway call for a turn fails, the user's message for that
turn remains appended, no assistant message is appended, and the failure is
surfaced as the turn's outcome rather than swallowed. -/
theorem C2_gateway_failure (s : SessionState) (q : String)
    (run : String → Except GatewayError String) (e : GatewayError)
    (hc : canSend s = true)
    (hf : get_research_response run q (s.messages ++ [userMessage q]) =
      Except.error e) :
    handle_user_question run s q =
      ({ s with messages := s.messages ++ [userMessage q] },
        TurnOutcome.failed e) :=
  handle_fail run s q e hc hf

theorem C2_gateway_failure_witness :
    handle_user_question
        (fun _ => Except.error (GatewayError.failed "network error"))
        initialSession "Q1" =
      ({ initialSession with messages := [userMessage "Q1"] },
        TurnOutcome.failed (GatewayError.failed "network error")) :=
  C2_gateway_failure initialSession "Q1"
    (fun _ => Except.error (GatewayError.failed "network error"))
    (GatewayError.failed "network error") rfl rfl

/-- C3: over every sequence of append and clear operations starting from an
empty store, an append adds at the end preserving insertion order, a clear
empties the store, and the final length equals the number of appends minus
the number of messages removed by the clears. -/
theorem C3_store_sequences :
    (∀ (ops : List StoreOp) (m : Message),
        runStore [] (ops ++ [StoreOp.append m]) = runStore [] ops ++ [m]) ∧
    (∀ ops : List StoreOp, runStore [] (ops ++ [StoreOp.clear]) = []) ∧
    (∀ ops : List StoreOp,
        (runStore [] ops).length = appendCount ops - removedCount 0 ops ∧
        (runStore [] ops).length + removedCount 0 ops = appendCount ops) := by
  refine ⟨fun ops m => runStore_append_last [] ops m,
    fun ops => runStore_clear_last [] ops, fun ops => ?_⟩
  have h := runStore_length_invariant ops []
  simp at h
  omega

/-- C4: a successful turn appends exactly the user message and then the
assistant message to the prior store contents, in that order. -/
theorem C4_success_turn (s : SessionState) (q a : String)
    (run : String → Except GatewayError String)
    (hc : canSend s = true)
    (hok : get_research_response run q (s.messages ++ [userMessage q]) =
      Except.ok a) :
    handle_user_question run s q =
      ({ s with
          messages := s.messages ++ [userMessage q, assistantMessage a] },
        TurnOutcome.answered a) :=
  handle_ok run s q a hc hok

theorem C4_success_turn_witness :
    handle_user_question (fun _ => Except.ok "A1") initialSession "Q1" =
      ({ initialSession with
          messages := [userMessage "Q1", assistantMessage "A1"] },
        TurnOutcome.answered "A1") :=
  C4_success_turn initialSession "Q1" "A1" (fun _ => Except.ok "A1") rfl rfl

/-- C5 (counterexample): with an empty store and question "Q1", the prompt
sent to the gateway — observed through an echo gateway whose answer is its
own prompt — is not the prompt whose context preamble covers only the prior
(here: zero) messages; the just-appended current question shows up as a
history line too. -/
theorem C5_counterexample :
    (handle_user_question (fun p => Except.ok p) initialSession "Q1").2 ≠
      TurnOutcome.answered
        ("Context of our conversation:\n" ++
          contextPreamble_spec initialSession.messages ++
          "\n\nCurrent question: " ++ "Q1") := by
  decide

/-- C5 (amended): for every accepted turn, the prompt sent to the hosted
agent has as context preamble the "role: content" lines of the store
contents at call time — the prior messages followed by the just-appended
current question — so the current question appears both as the final
context line and in the question field. -/
theorem C5_amended_context (s : SessionState) (q a : String)
    (run : String → Except GatewayError String)
    (hc : canSend s = true)
    (hrun : run ("Context of our conversation:\n" ++
        contextPreamble_spec (s.messages ++ [userMessage q]) ++
        "\n\nCurrent question: " ++ q) = Except.ok a) :
    handle_user_question run s q =
      ({ s with
          messages := s.messages ++ [userMessage q, assistantMessage a] },
        TurnOutcome.answered a) :=
  handle_ok run s q a hc hrun

theorem C5_amended_context_witness :
    handle_user_question (fun p => Except.ok p) initialSession "Q1" =
      ({ initialSession with
          messages := [userMessage "Q1",
            assistantMessage ("Context of our conversation:\n" ++
              contextPreamble_spec [userMessage "Q1"] ++
              "\n\nCurrent question: " ++ "Q1")] },
        TurnOutcome.answered ("Context of our conversation:\n" ++
          contextPreamble_spec [userMessage "Q1"] ++
          "\n\nCurrent question: " ++ "Q1")) :=
  C5_amended_context initialSession "Q1" _ (fun p => Except.ok p) rfl rfl

/-- C6: end_conversation sets the active flag to false and appends exactly
the one fixed terminal assistant message after the untouched previous
messages; running it twice appends two terminal messages. -/
theorem C6_end_conversation_behavior :
    ∀ s : SessionState,
      (end_conversation s).conversation_active = false ∧
      (end_conversation s).messages = s.messages ++ [terminalMessage] ∧
      terminalMessage.role = "assistant" ∧
      (end_conversation (end_conversation s)).messages =
        s.messages ++ [terminalMessage, terminalMessage] := by
  intro s
  refine ⟨rfl, rfl, rfl, ?_⟩
  simp [end_conversation]

/-- C7: the active flag is informational only: the chat handler's resulting
messages and outcome are identical for any two values of
conversation_active, and the handler carries the flag through unchanged. -/
theorem C7_active_flag_informational :
    ∀ (s : SessionState) (q : String)
      (run : String → Except GatewayError String) (b b' : Bool),
      (handle_user_question run { s with conversation_active := b } q).1.messages =
        (handle_user_question run { s with conversation_active := b' } q).1.messages ∧
      (handle_user_question run { s with conversation_active := b } q).2 =
        (handle_user_question run { s with conversation_active := b' } q).2 ∧
      (handle_user_question run s q).1.conversation_active =
        s.conversation_active := by
  intro s q run b b'
  rcases s with ⟨m, w, f, act⟩
  by_cases hcond : (!w && !f) = true
  · simp [handle_user_question, hcond]
  · have hc : (!w && !f) = false := by simpa using hcond
    cases hr : get_research_response run q (m ++ [userMessage q]) <;>
      simp [handle_user_question, hc, hr]

/-- C8: the transcript renderer escapes every occurrence of the ampersand
and the angle brackets in message content and converts every newline to a
line break — character by character, each markup-significant character is
replaced by its escape sequence and all other characters pass through —
and the rendered document is the fixed header, one block per message built
on the escaped content, and the closing tags. -/
theorem C8_content_escaping :
    (∀ s : String, (escapeContent s).data = escMap s.data) ∧
    escChar '&' = "&amp;".data ∧
    escChar '<' = "&lt;".data ∧
    escChar '>' = "&gt;".data ∧
    escChar '\n' = "<br>".data ∧
    (∀ c : Char, c ≠ '&' → c ≠ '<' → c ≠ '>' → c ≠ '\n' → escChar c = [c]) ∧
    (∀ messages : List Message,
        format_messages_as_html messages =
          htmlHeader ++ msgsHtml messages ++ "</body></html>") := by
  refine ⟨fun s => escapeList_eq_escMap s.data, rfl, rfl, rfl, rfl, ?_, ?_⟩
  · intro c h1 h2 h3 h4
    simp [escChar, h1, h2, h3, h4]
  · intro messages
    unfold format_messages_as_html
    rw [format_body_eq]

theorem C8_content_escaping_witness :
    escChar 'x' = ['x'] ∧ (escapeContent "a<b&c").data = escMap "a<b&c".data :=
  ⟨C8_content_escaping.2.2.2.2.2.1 'x' (by decide) (by decide) (by decide)
      (by decide),
    C8_content_escaping.1 "a<b&c"⟩

/-- C9: rendering is deterministic and stateless: on equal message lists
the renderer produces equal output documents. -/
theorem C9_render_deterministic :
    ∀ m1 m2 : List Message, m1 = m2 →
      format_messages_as_html m1 = format_messages_as_html m2 := by
  intro m1 m2 h
  rw [h]

theorem C9_render_deterministic_witness :
    format_messages_as_html [userMessage "hi", assistantMessage "there"] =
      format_messages_as_html [userMessage "hi", assistantMessage "there"] :=
  C9_render_deterministic [userMessage "hi", assistantMessage "there"]
    [userMessage "hi", assistantMessage "there"] rfl

/-- C10: clearing the conversation empties only the message list and
preserves the two tool flags and the active flag. -/
theorem C10_clear_frame :
    ∀ s : SessionState,
      (clear_conversation s).messages = [] ∧
      (clear_conversation s).use_web_search = s.use_web_search ∧
      (clear_conversation s).use_file_search = s.use_file_search ∧
      (clear_conversation s).conversation_active = s.conversation_active :=
  fun _ => ⟨rfl, rfl, rfl, rfl⟩

end ResearchAssistant
